import Mathlib

/-!
A shallow embedding of the PMS7003 particulate-matter sensor driver
(`pms7003.py`) and proofs about its frame synchronisation, validation,
decoding and command-encoding logic.

The serial transport (MicroPython `UART`) is an external collaborator;
it is modelled as a queue of read results — each `read` call pops one
result, where `none` models a read that returned no data — plus the list
of frames written so far.  Timing (`sleep`) has no observable effect on
the data flow and is omitted.
-/

/-- One result of a `UART.read` call: `none` when no data was available,
otherwise the bytes returned. -/
abbrev ReadResult := Option (List Nat)

/-- The modelled serial port: a queue of pending read results and the
frames written so far (most recent last). -/
structure UARTState where
  reads : List ReadResult
  written : List (List Nat)
  deriving DecidableEq, Repr

/-- `PMS7003.START_SEQUENCE = b"\x42\x4d"`. -/
def START_SEQUENCE : List Nat := [0x42, 0x4D]

/-- `PMS7003.CMD_READ = b"\xe2"`. -/
def CMD_READ : Nat := 0xE2

/-- `PMS7003.CMD_MODE = b"\xe1"`. -/
def CMD_MODE : Nat := 0xE1

/-- `PMS7003.CMD_SLEEP = b"\xe4"`. -/
def CMD_SLEEP : Nat := 0xE4

/-- `PMS7003.MODE_PASSIVE = b"\x00\x00"`. -/
def MODE_PASSIVE : List Nat := [0x00, 0x00]

/-- `PMS7003.MODE_ACTIVE = b"\x00\x01"`. -/
def MODE_ACTIVE : List Nat := [0x00, 0x01]

/-- `PMS7003.MODE_SLEEP = b"\x00\x00"`. -/
def MODE_SLEEP : List Nat := [0x00, 0x00]

/-- `PMS7003.MODE_WAKE = b"\x00\x01"`. -/
def MODE_WAKE : List Nat := [0x00, 0x01]

/-- `PMS7003.MAX_ITERATION_TIME = 64`: single-byte reads allowed while
searching for the start sequence. -/
def MAX_ITERATION_TIME : Nat := 64

/-- Big-endian decode of two bytes (`struct.unpack(">H", ...)`). -/
def be16 (hi lo : Nat) : Nat := hi * 256 + lo

/-- `struct.pack(">H", n)`: the low 16 bits of `n`, big-endian.  (The
Python call raises for `n ≥ 2^16`; the driver only ever packs sums of
five bytes, far below that bound.) -/
def pack16be (n : Nat) : List Nat := [n % 65536 / 256, n % 256]

/-- `PMS7003._checksum`: the sum of every byte of `packet` except the
last two (`sum(packet[0:-2])`). -/
def _checksum (packet : List Nat) : Nat := (packet.dropLast.dropLast).sum

/-- The command frame built inside `PMS7003._write`: start sequence,
command byte, two data bytes, then the checksum of the packet extended
with the placeholder bytes `0xFF 0xFF`, packed big-endian. -/
def buildCommand (command : Nat) (data : List Nat) : List Nat :=
  let packet := START_SEQUENCE ++ [command] ++ data
  let checksum_int := _checksum (packet ++ [0xFF, 0xFF])
  packet ++ pack16be checksum_int

/-- The tuple produced by
`struct.unpack(">HHHHHHHHHHHHHBBH", packet[2:])`, with the tuple
positions given their field names.  Index 0 is the frame length, 1–12
the twelve measurement fields, 13 the version, 14 the error code and
15 the transmitted checksum. -/
structure SensorData where
  frame_length : Nat
  pm1_0_cf_1 : Nat
  pm2_5_cf_1 : Nat
  pm10_cf_1 : Nat
  pm1_0 : Nat
  pm2_5 : Nat
  pm10 : Nat
  raw_gt_0_3 : Nat
  raw_gt_0_5 : Nat
  raw_gt_1_0 : Nat
  raw_gt_2_5 : Nat
  raw_gt_5_0 : Nat
  raw_gt_10 : Nat
  version : Nat
  error_code : Nat
  checksum : Nat
  deriving DecidableEq, Repr

/-- `struct.unpack(">HHHHHHHHHHHHHBBH", bytes)`: requires exactly 30
bytes (13 big-endian uint16, two uint8, one big-endian uint16);
`none` models the `struct.error` raised on any other length. -/
def unpack (bytes : List Nat) : Option SensorData :=
  match bytes with
  | [r0, r1, r2, r3, r4, r5, r6, r7, r8, r9, r10, r11, r12, r13, r14,
     r15, r16, r17, r18, r19, r20, r21, r22, r23, r24, r25, r26, r27, r28, r29] =>
    some {
      frame_length := be16 r0 r1
      pm1_0_cf_1 := be16 r2 r3
      pm2_5_cf_1 := be16 r4 r5
      pm10_cf_1 := be16 r6 r7
      pm1_0 := be16 r8 r9
      pm2_5 := be16 r10 r11
      pm10 := be16 r12 r13
      raw_gt_0_3 := be16 r14 r15
      raw_gt_0_5 := be16 r16 r17
      raw_gt_1_0 := be16 r18 r19
      raw_gt_2_5 := be16 r20 r21
      raw_gt_5_0 := be16 r22 r23
      raw_gt_10 := be16 r24 r25
      version := r26
      error_code := r27
      checksum := be16 r28 r29 }
  | _ => none

/-- `int(packet[-1])`: the last byte of the assembled packet. -/
def checksumReceived (packet : List Nat) : Nat := packet.getLastD 0

/-- `self._checksum(packet) & 0xFF`: low 8 bits of the derived checksum. -/
def checksumDerived (packet : List Nat) : Nat := _checksum packet % 256

/-- `sum(packet[2:-4])`: the sum of the measurement bytes, i.e. every
packet byte after the start sequence and before the version, error-code
and checksum bytes. -/
def measurementSum (packet : List Nat) : Nat :=
  ((packet.take (packet.length - 4)).drop 2).sum

/-- The reasons a `DataIntegrityError` is raised, each carrying the
diagnostics its message interpolates. -/
inductive DataIntegrityKind where
  | checksumMismatch (received derived : Nat)
  | allZero
  | sensorError (code : Nat)
  deriving DecidableEq, Repr

/-- The failures `_read` can raise.  `typeError` models
`bytearray.extend(None)` when `read(30)` returns no data, and
`structError` models `struct.unpack` on a packet of the wrong length. -/
inductive PMSError where
  | communication
  | dataIntegrity (kind : DataIntegrityKind)
  | typeError
  | structError
  deriving DecidableEq, Repr

/-- Python truthiness of a read result: `None` and `b""` are falsy. -/
def truthyRead (r : ReadResult) : Bool :=
  match r with
  | none => false
  | some [] => false
  | some (_ :: _) => true

/-- `START_SEQUENCE[0:1]`. -/
def marker0 : List Nat := START_SEQUENCE.take 1

/-- `START_SEQUENCE[1:2]`. -/
def marker1 : List Nat := START_SEQUENCE.drop 1

/-- The tail of `_read` after the start sequence has been matched:
read the remaining 30 bytes, validate the checksum, reject an all-zero
measurement region, unpack and reject a non-zero sensor error code. -/
def processPacket (rs : List ReadResult) :
    Except PMSError SensorData × List ReadResult :=
  match rs.headD none with
  | none => (Except.error PMSError.typeError, rs.tail)
  | some bytes =>
    let packet := START_SEQUENCE ++ bytes
    let checksum_received := checksumReceived packet
    let checksum_derived := checksumDerived packet
    if checksum_received ≠ checksum_derived then
      (Except.error (PMSError.dataIntegrity
        (DataIntegrityKind.checksumMismatch checksum_received checksum_derived)), rs.tail)
    else if measurementSum packet = 0 then
      (Except.error (PMSError.dataIntegrity DataIntegrityKind.allZero), rs.tail)
    else
      match unpack (packet.drop 2) with
      | none => (Except.error PMSError.structError, rs.tail)
      | some sd =>
        if sd.error_code ≠ 0 then
          (Except.error (PMSError.dataIntegrity
            (DataIntegrityKind.sensorError sd.error_code)), rs.tail)
        else (Except.ok sd, rs.tail)

/-- The byte-scan loop of `PMS7003._read`.  The fuel is the number of
iterations still allowed before `count > MAX_ITERATION_TIME` raises
`CommunicationError`; `prev` is `_previous_read`.  Each iteration pops
one read result from the queue. -/
def readLoop : Nat → ReadResult → List ReadResult →
    Except PMSError SensorData × List ReadResult
  | 0, _, rs => (Except.error PMSError.communication, rs)
  | fuel + 1, prev, rs =>
    let raw := rs.headD none
    if truthyRead prev = false ∨ prev ≠ some marker0 then
      readLoop fuel raw rs.tail
    else if truthyRead raw = false ∨ raw ≠ some marker1 then
      readLoop fuel prev rs.tail
    else
      processPacket rs.tail

/-- The driver state: the configured mode flag (`self._passive`) and the
cached reading (`self._data`). -/
structure Driver where
  passive : Bool
  data : Option SensorData
  deriving DecidableEq, Repr

/-- `PMS7003._read`: clears the cached reading, runs the byte-scan loop,
and on success caches the decoded tuple.  The `Except` value models
normal return versus a raised exception. -/
def _read (d : Driver) (u : UARTState) :
    Driver × UARTState × Except PMSError Unit :=
  match readLoop MAX_ITERATION_TIME none u.reads with
  | (Except.ok sd, rs) =>
    ({ d with data := some sd }, { u with reads := rs }, Except.ok ())
  | (Except.error e, rs) =>
    ({ d with data := none }, { u with reads := rs }, Except.error e)

/-- `PMS7003._write`: build the command frame and hand it to the
transport. -/
def _write (u : UARTState) (command : Nat) (data : List Nat) : UARTState :=
  { u with written := u.written ++ [buildCommand command data] }

/-- `PMS7003.set_passive`: send the mode command with the passive
payload, then drain the whole read buffer. -/
def set_passive (d : Driver) (u : UARTState) : Driver × UARTState :=
  (d, { _write u CMD_MODE MODE_PASSIVE with reads := [] })

/-- `PMS7003.set_active`. -/
def set_active (d : Driver) (u : UARTState) : Driver × UARTState :=
  (d, _write u CMD_MODE MODE_ACTIVE)

/-- `PMS7003.sleep` method (named `sleepCmd` here; the plain name would
shadow the clock primitive the source imports under that name). -/
def sleepCmd (d : Driver) (u : UARTState) : Driver × UARTState :=
  (d, _write u CMD_SLEEP MODE_SLEEP)

/-- `PMS7003.wake`. -/
def wake (d : Driver) (u : UARTState) : Driver × UARTState :=
  (d, _write u CMD_SLEEP MODE_WAKE)

/-- `PMS7003.get_sensor_data`: in passive mode send a read request
first, then poll; in active mode poll directly.  Returns `()` on
success — the decoded reading is cached on the driver, not returned. -/
def get_sensor_data (d : Driver) (u : UARTState) :
    Driver × UARTState × Except PMSError Unit :=
  if d.passive then _read d (_write u CMD_READ [0x00, 0x00])
  else _read d u

/-- `PMS7003.pm1_0_cf_1` property (`self._data[1]`, `None` when absent). -/
def pm1_0_cf_1 (d : Driver) : Option Nat := d.data.map SensorData.pm1_0_cf_1

/-- `PMS7003.pm2_5_cf_1` property. -/
def pm2_5_cf_1 (d : Driver) : Option Nat := d.data.map SensorData.pm2_5_cf_1

/-- `PMS7003.pm10_cf_1` property. -/
def pm10_cf_1 (d : Driver) : Option Nat := d.data.map SensorData.pm10_cf_1

/-- `PMS7003.pm1_0` property. -/
def pm1_0 (d : Driver) : Option Nat := d.data.map SensorData.pm1_0

/-- `PMS7003.pm2_5` property. -/
def pm2_5 (d : Driver) : Option Nat := d.data.map SensorData.pm2_5

/-- `PMS7003.pm10` property. -/
def pm10 (d : Driver) : Option Nat := d.data.map SensorData.pm10

/-- `PMS7003.raw_gt_0_3` property. -/
def raw_gt_0_3 (d : Driver) : Option Nat := d.data.map SensorData.raw_gt_0_3

/-- `PMS7003.raw_gt_0_5` property. -/
def raw_gt_0_5 (d : Driver) : Option Nat := d.data.map SensorData.raw_gt_0_5

/-- `PMS7003.raw_gt_1_0` property. -/
def raw_gt_1_0 (d : Driver) : Option Nat := d.data.map SensorData.raw_gt_1_0

/-- `PMS7003.raw_gt_2_5` property. -/
def raw_gt_2_5 (d : Driver) : Option Nat := d.data.map SensorData.raw_gt_2_5

/-- `PMS7003.raw_gt_5_0` property. -/
def raw_gt_5_0 (d : Driver) : Option Nat := d.data.map SensorData.raw_gt_5_0

/-- `PMS7003.raw_gt_10` property. -/
def raw_gt_10 (d : Driver) : Option Nat := d.data.map SensorData.raw_gt_10

/-- `PMS7003.version` property. -/
def version (d : Driver) : Option Nat := d.data.map SensorData.version

/-- `PMS7003.error` property. -/
def error (d : Driver) : Option Nat := d.data.map SensorData.error_code

/-- `PMS7003.__init__`: send the requested mode command (draining the
buffer on passive entry), record the mode flag, no cached reading. -/
def initDriver (passive : Bool) (u : UARTState) : Driver × UARTState :=
  let d : Driver := { passive := passive, data := none }
  if passive then set_passive d u else set_active d u

/-- The public operations of the driver. -/
inductive Op where
  | opSetPassive
  | opSetActive
  | opSleep
  | opWake
  | opGetSensorData
  deriving DecidableEq, Repr

/-- Run one public operation. -/
def runOp (s : Driver × UARTState) (op : Op) : Driver × UARTState :=
  match op with
  | Op.opSetPassive => set_passive s.1 s.2
  | Op.opSetActive => set_active s.1 s.2
  | Op.opSleep => sleepCmd s.1 s.2
  | Op.opWake => wake s.1 s.2
  | Op.opGetSensorData => ((get_sensor_data s.1 s.2).1, (get_sensor_data s.1 s.2).2.1)

/-- Run a sequence of public operations. -/
def runOps (s : Driver × UARTState) (ops : List Op) : Driver × UARTState :=
  ops.foldl runOp s

/-- A reading that was decoded whole from a single frame passing every
validation: correct low-8-bit checksum, non-zero measurement region,
successful 30-byte unpack and a zero error code. -/
def ValidReading (sd : SensorData) : Prop :=
  ∃ bytes : List Nat,
    checksumReceived (START_SEQUENCE ++ bytes) = checksumDerived (START_SEQUENCE ++ bytes) ∧
    measurementSum (START_SEQUENCE ++ bytes) ≠ 0 ∧
    unpack ((START_SEQUENCE ++ bytes).drop 2) = some sd ∧
    sd.error_code = 0

/-- Modelled from the spec, for comparison with `buildCommand` only:
the command checksum as the spec describes it — the low 16 bits of the
sum of marker, command, payload AND the two placeholder bytes
`0xFF 0xFF`. -/
def buildCommandSpecC3 (command : Nat) (data : List Nat) : List Nat :=
  let packet := START_SEQUENCE ++ [command] ++ data
  let checksum_int := (packet ++ [0xFF, 0xFF]).sum % 65536
  packet ++ pack16be checksum_int

/-- The valid frame remainder used throughout the repository's tests:
length `0x001c`, PM values 5/8/35 (twice), counts 48/12/1/0/0/0,
version `0x98`, error code 0, checksum `0x01e0`. -/
def goodRest : List Nat :=
  [0x00, 0x1c, 0x00, 0x05, 0x00, 0x08, 0x00, 0x23, 0x00, 0x05, 0x00, 0x08,
   0x00, 0x23, 0x00, 0x30, 0x00, 0x0c, 0x00, 0x01, 0x00, 0x00, 0x00, 0x00,
   0x00, 0x00, 0x98, 0x00, 0x01, 0xe0]

/-- The decode of `goodRest`. -/
def goodSD : SensorData :=
  { frame_length := 28, pm1_0_cf_1 := 5, pm2_5_cf_1 := 8, pm10_cf_1 := 35,
    pm1_0 := 5, pm2_5 := 8, pm10 := 35,
    raw_gt_0_3 := 48, raw_gt_0_5 := 12, raw_gt_1_0 := 1,
    raw_gt_2_5 := 0, raw_gt_5_0 := 0, raw_gt_10 := 0,
    version := 152, error_code := 0, checksum := 480 }

/-- A frame remainder whose transmitted checksum low byte (`0x70`) does
not match the derived one (`0xe0`), from the repository's tests. -/
def badChecksumRest : List Nat :=
  [0x00, 0x1c, 0x00, 0x00, 0x00, 0x00, 0x00, 0x00, 0x00, 0x00, 0x00, 0x00,
   0x00, 0x00, 0x00, 0x30, 0x00, 0x0c, 0x00, 0x01, 0x00, 0x00, 0x00, 0x00,
   0x00, 0x00, 0x98, 0x00, 0x01, 0x70]

/-- The all-zero-measurement frame remainder from the repository's
tests: checksum-consistent, but every measurement byte is zero. -/
def zeroRest : List Nat :=
  [0x00, 0x00, 0x00, 0x00, 0x00, 0x00, 0x00, 0x00, 0x00, 0x00, 0x00, 0x00,
   0x00, 0x00, 0x00, 0x00, 0x00, 0x00, 0x00, 0x00, 0x00, 0x00, 0x00, 0x00,
   0x00, 0x00, 0x98, 0x00, 0x01, 0x27]

/-- An active-mode driver with no cached reading. -/
def dActive : Driver := { passive := false, data := none }

/-- A transport with nothing to read and nothing written. -/
def uEmpty : UARTState := { reads := [], written := [] }

/-- No `0x42` read is followed (anywhere later, within the first `n`
reads) by a `0x4D` read: the condition under which the byte-scan loop
can never enter frame processing. -/
def noStartMatch (reads : List ReadResult) (n : Nat) : Prop :=
  ∀ i < n, ∀ j < n, i < j →
    ¬(reads.get? i = some (some marker0) ∧ reads.get? j = some (some marker1))

theorem get?_tail_eq (l : List ReadResult) (k : Nat) :
    l.tail.get? k = l.get? (k + 1) := by
  cases l <;> rfl

theorem _checksum_placeholder (l : List Nat) :
    _checksum (l ++ [0xFF, 0xFF]) = l.sum := by
  have h : l ++ [0xFF, 0xFF] = ((l ++ [0xFF]) ++ [0xFF]) := by simp
  rw [_checksum, h, List.dropLast_concat, List.dropLast_concat]

theorem readLoop_cont1 (fuel : Nat) (prev : ReadResult) (rs : List ReadResult)
    (h : prev ≠ some marker0) :
    readLoop (fuel + 1) prev rs = readLoop fuel (rs.headD none) rs.tail := by
  rw [readLoop]
  rw [if_pos (Or.inr h)]

theorem readLoop_cont2 (fuel : Nat) (rs : List ReadResult)
    (h : rs.headD none ≠ some marker1) :
    readLoop (fuel + 1) (some marker0) rs = readLoop fuel (some marker0) rs.tail := by
  rw [readLoop]
  rw [if_neg (by decide), if_pos (Or.inr h)]

theorem readLoop_hit (fuel : Nat) (rs : List ReadResult)
    (h : rs.headD none = some marker1) :
    readLoop (fuel + 1) (some marker0) rs = processPacket rs.tail := by
  rw [readLoop]
  rw [if_neg (by decide), if_neg (by rw [h]; decide)]

theorem readLoop_start (t : List ReadResult) :
    readLoop MAX_ITERATION_TIME none (some marker0 :: some marker1 :: t) =
      processPacket t := by
  show readLoop (63 + 1) none (some marker0 :: some marker1 :: t) = processPacket t
  rw [readLoop_cont1 63 none _ (by decide)]
  simp only [List.headD_cons, List.tail_cons]
  show readLoop (62 + 1) (some marker0) (some marker1 :: t) = processPacket t
  rw [readLoop_hit 62 (some marker1 :: t) rfl]
  simp only [List.tail_cons]

theorem processPacket_checksum_fail (bytes : List Nat) (t : List ReadResult)
    (h : checksumReceived (START_SEQUENCE ++ bytes) ≠ checksumDerived (START_SEQUENCE ++ bytes)) :
    processPacket (some bytes :: t) =
      (Except.error (PMSError.dataIntegrity (DataIntegrityKind.checksumMismatch
        (checksumReceived (START_SEQUENCE ++ bytes))
        (checksumDerived (START_SEQUENCE ++ bytes)))), t) := by
  simp only [processPacket, List.headD_cons, List.tail_cons]
  rw [if_pos h]

theorem processPacket_all_zero (bytes : List Nat) (t : List ReadResult)
    (hc : checksumReceived (START_SEQUENCE ++ bytes) = checksumDerived (START_SEQUENCE ++ bytes))
    (hz : measurementSum (START_SEQUENCE ++ bytes) = 0) :
    processPacket (some bytes :: t) =
      (Except.error (PMSError.dataIntegrity DataIntegrityKind.allZero), t) := by
  simp only [processPacket, List.headD_cons, List.tail_cons]
  rw [if_neg (not_ne_iff.mpr hc), if_pos hz]

theorem processPacket_ok (bytes : List Nat) (t : List ReadResult) (sd : SensorData)
    (hc : checksumReceived (START_SEQUENCE ++ bytes) = checksumDerived (START_SEQUENCE ++ bytes))
    (hz : measurementSum (START_SEQUENCE ++ bytes) ≠ 0)
    (hu : unpack bytes = some sd)
    (he : sd.error_code = 0) :
    processPacket (some bytes :: t) = (Except.ok sd, t) := by
  simp only [processPacket, List.headD_cons, List.tail_cons]
  rw [if_neg (not_ne_iff.mpr hc), if_neg hz]
  have hdrop : (START_SEQUENCE ++ bytes).drop 2 = bytes := rfl
  rw [hdrop, hu]
  simp only []
  rw [if_neg (not_ne_iff.mpr he)]

theorem tail_drop_eq (l : List ReadResult) (n : Nat) :
    l.tail.drop n = l.drop (n + 1) := by
  cases l with
  | nil => simp
  | cons r t => rfl

theorem readLoop_skip_noise (noise : List ReadResult) :
    ∀ (fuel : Nat) (t : List ReadResult),
    (∀ x ∈ noise, x ≠ some marker1) → noise.length + 1 ≤ fuel →
    readLoop fuel (some marker0) (noise ++ some marker1 :: t) = processPacket t := by
  induction noise with
  | nil =>
    intro fuel t _ hf
    obtain ⟨f, rfl⟩ : ∃ f, fuel = f + 1 := ⟨fuel - 1, by omega⟩
    simp only [List.nil_append]
    rw [readLoop_hit f (some marker1 :: t) rfl]
    simp only [List.tail_cons]
  | cons x ns ih =>
    intro fuel t hn hf
    obtain ⟨f, rfl⟩ : ∃ f, fuel = f + 1 := ⟨fuel - 1, by omega⟩
    simp only [List.cons_append]
    rw [readLoop_cont2 f (x :: (ns ++ some marker1 :: t))
      (by simp only [List.headD_cons]; exact hn x (List.mem_cons_self x ns))]
    simp only [List.tail_cons]
    exact ih f t (fun y hy => hn y (List.mem_cons_of_mem x hy))
      (by simp only [List.length_cons] at hf; omega)

theorem readLoop_no_match :
    ∀ (fuel : Nat) (prev : ReadResult) (rs : List ReadResult),
    (prev = some marker0 → ∀ j < fuel, rs.get? j ≠ some (some marker1)) →
    (∀ i < fuel, ∀ j < fuel, i < j →
      ¬(rs.get? i = some (some marker0) ∧ rs.get? j = some (some marker1))) →
    readLoop fuel prev rs = (Except.error PMSError.communication, rs.drop fuel) := by
  intro fuel
  induction fuel with
  | zero =>
    intro prev rs _ _
    rw [readLoop, List.drop_zero]
  | succ f ih =>
    intro prev rs h1 h2
    have h2' : ∀ i < f, ∀ j < f, i < j →
        ¬(rs.tail.get? i = some (some marker0) ∧ rs.tail.get? j = some (some marker1)) := by
      intro i hi j hj hij hb
      rw [get?_tail_eq, get?_tail_eq] at hb
      exact h2 (i + 1) (by omega) (j + 1) (by omega) (by omega) hb
    by_cases hp : prev = some marker0
    · subst hp
      have hraw : rs.headD none ≠ some marker1 := by
        cases rs with
        | nil => simp [List.headD]
        | cons r t => simpa using h1 rfl 0 (Nat.succ_pos f)
      rw [readLoop_cont2 f rs hraw]
      rw [ih (some marker0) rs.tail
        (fun _ j hj => by rw [get?_tail_eq]; exact h1 rfl (j + 1) (by omega)) h2']
      rw [tail_drop_eq]
    · rw [readLoop_cont1 f prev rs hp]
      rw [ih (rs.headD none) rs.tail ?_ h2']
      · rw [tail_drop_eq]
      · intro hh j hj hb
        cases rs with
        | nil => simp [List.headD] at hh
        | cons r t =>
          simp only [List.headD_cons] at hh
          rw [get?_tail_eq] at hb
          exact h2 0 (by omega) (j + 1) (by omega) (by omega)
            ⟨by simp [hh], hb⟩

theorem processPacket_ok_valid (rs rs' : List ReadResult) (sd : SensorData)
    (h : processPacket rs = (Except.ok sd, rs')) : ValidReading sd := by
  unfold processPacket at h
  cases hh : rs.headD none with
  | none =>
    rw [hh] at h
    simp at h
  | some bytes =>
    simp only [hh] at h
    by_cases h1 : checksumReceived (START_SEQUENCE ++ bytes) ≠ checksumDerived (START_SEQUENCE ++ bytes)
    · rw [if_pos h1] at h
      simp at h
    · rw [if_neg h1] at h
      by_cases h2 : measurementSum (START_SEQUENCE ++ bytes) = 0
      · rw [if_pos h2] at h
        simp at h
      · rw [if_neg h2] at h
        cases hu : unpack ((START_SEQUENCE ++ bytes).drop 2) with
        | none =>
          rw [hu] at h
          simp at h
        | some sd2 =>
          simp only [hu] at h
          by_cases h3 : sd2.error_code ≠ 0
          · rw [if_pos h3] at h
            simp at h
          · rw [if_neg h3] at h
            simp only [Prod.mk.injEq, Except.ok.injEq] at h
            obtain ⟨rfl, -⟩ := h
            exact ⟨bytes, not_ne_iff.mp h1, h2, hu, not_ne_iff.mp h3⟩

theorem readLoop_ok_valid :
    ∀ (fuel : Nat) (prev : ReadResult) (rs rs' : List ReadResult) (sd : SensorData),
    readLoop fuel prev rs = (Except.ok sd, rs') → ValidReading sd := by
  intro fuel
  induction fuel with
  | zero =>
    intro prev rs rs' sd h
    rw [readLoop] at h
    simp at h
  | succ f ih =>
    intro prev rs rs' sd h
    rw [readLoop] at h
    by_cases c1 : truthyRead prev = false ∨ prev ≠ some marker0
    · rw [if_pos c1] at h
      exact ih _ _ _ _ h
    · rw [if_neg c1] at h
      by_cases c2 : truthyRead (rs.headD none) = false ∨ rs.headD none ≠ some marker1
      · rw [if_pos c2] at h
        exact ih _ _ _ _ h
      · rw [if_neg c2] at h
        exact processPacket_ok_valid _ _ _ h

theorem _read_written (d : Driver) (u : UARTState) :
    (_read d u).2.1.written = u.written := by
  unfold _read
  cases h : readLoop MAX_ITERATION_TIME none u.reads with
  | mk r rs => cases r <;> simp

theorem _read_data_valid (d : Driver) (u : UARTState) :
    (_read d u).1.data = none ∨
      ∃ sd, (_read d u).1.data = some sd ∧ ValidReading sd := by
  unfold _read
  cases h : readLoop MAX_ITERATION_TIME none u.reads with
  | mk r rs =>
    cases r with
    | error e => left; rfl
    | ok sd => right; exact ⟨sd, rfl, readLoop_ok_valid _ _ _ _ _ h⟩

/-- C4: building the mode-set command with the passive payload produces
exactly the seven bytes `42 4D E1 00 00 01 70`, and with the active
payload exactly `42 4D E1 00 01 01 71`. -/
theorem claim_C4 :
    buildCommand CMD_MODE MODE_PASSIVE = [0x42, 0x4D, 0xE1, 0x00, 0x00, 0x01, 0x70] ∧
    buildCommand CMD_MODE MODE_ACTIVE = [0x42, 0x4D, 0xE1, 0x00, 0x01, 0x01, 0x71] := by
  exact ⟨rfl, rfl⟩

/-- C3 counterexample: the claim's checksum rule — low 16 bits of the
sum of marker, command, payload AND the placeholder bytes `0xFF 0xFF` —
disagrees with the code on the passive mode-set command: the code emits
checksum `0x0170` where the claimed rule gives `0x036E`, because
`_checksum` sums `packet[0:-2]`, excluding the placeholder bytes. -/
theorem claim_C3_counterexample :
    buildCommand CMD_MODE MODE_PASSIVE = [0x42, 0x4D, 0xE1, 0x00, 0x00, 0x01, 0x70] ∧
    buildCommandSpecC3 CMD_MODE MODE_PASSIVE = [0x42, 0x4D, 0xE1, 0x00, 0x00, 0x03, 0x6E] ∧
    buildCommand CMD_MODE MODE_PASSIVE ≠ buildCommandSpecC3 CMD_MODE MODE_PASSIVE := by
  exact ⟨rfl, rfl, by decide⟩

/-- C3 (amended): the checksum field of the 7-byte outbound command
frame equals the low 16 bits of the sum of the two marker bytes, the
command byte and the two payload bytes alone, packed big-endian; the
placeholder bytes `0xFF 0xFF` are appended before the checksum call but
contribute nothing, since the checksum sums all but the last two bytes. -/
theorem claim_C3 (command d0 d1 : Nat) :
    buildCommand command [d0, d1] =
      [0x42, 0x4D, command, d0, d1,
       (0x42 + 0x4D + command + d0 + d1) % 65536 / 256,
       (0x42 + 0x4D + command + d0 + d1) % 256] := by
  have h : _checksum ((START_SEQUENCE ++ [command] ++ [d0, d1]) ++ [0xFF, 0xFF]) =
      0x42 + 0x4D + command + d0 + d1 := by
    rw [_checksum_placeholder]
    simp [START_SEQUENCE]
    ring
  simp only [buildCommand]
  rw [h]
  simp [START_SEQUENCE, pack16be]

/-- C2 counterexample: a frame read IS triggered by a `0x42` and a
`0x4D` separated by an intervening non-marker byte (`0x00`): the scan
keeps the `0x42` candidate across the mismatch, so the stream
`42, 00, 4D, <valid frame remainder>` decodes successfully. -/
theorem claim_C2_counterexample :
    _read dActive
        { reads := [some [0x42], some [0x00], some [0x4D], some goodRest],
          written := [] } =
      ({ passive := false, data := some goodSD },
       { reads := [], written := [] }, Except.ok ()) := by
  rfl

/-- C2 (amended): `read_frame()` begins consuming the 30-byte remainder
at the first read equal to marker byte 1 (`0x4D`) made while a marker
byte 0 (`0x42`) candidate is held; on a mismatched read the match is not
completed at that position, but the candidate is retained rather than
discarded, so intervening non-`0x4D` reads between the `0x42` and the
`0x4D` do not prevent (nor re-anchor) the frame read. -/
theorem claim_C2 (noise : List ReadResult) (t : List ReadResult)
    (hn : ∀ x ∈ noise, x ≠ some marker1)
    (hlen : noise.length + 2 ≤ MAX_ITERATION_TIME) :
    readLoop MAX_ITERATION_TIME none (some marker0 :: (noise ++ some marker1 :: t)) =
      processPacket t := by
  show readLoop (63 + 1) none (some marker0 :: (noise ++ some marker1 :: t)) = processPacket t
  rw [readLoop_cont1 63 none _ (by decide)]
  simp only [List.headD_cons, List.tail_cons]
  exact readLoop_skip_noise noise 63 t hn
    (by rw [MAX_ITERATION_TIME] at hlen; omega)

/-- C2 witness: the amended statement at the concrete stream
`42, 00, 4D, <frame>`. -/
theorem claim_C2_witness :
    readLoop MAX_ITERATION_TIME none
        (some marker0 :: ([some [0x00]] ++ some marker1 :: [some goodRest])) =
      processPacket [some goodRest] :=
  claim_C2 [some [0x00]] [some goodRest] (by decide) (by decide)

/-- C8 counterexample: on a successful passive-mode run the value
returned by `get_sensor_data` is the unit value — the decoded reading is
only cached on the driver — contradicting the claim that the Reading is
the return value. -/
theorem claim_C8_counterexample :
    (get_sensor_data { passive := true, data := none }
        { reads := [some [0x42], some [0x4D], some goodRest], written := [] }).2.2 =
      Except.ok () ∧
    (get_sensor_data { passive := true, data := none }
        { reads := [some [0x42], some [0x4D], some goodRest], written := [] }).1.data =
      some goodSD := by
  exact ⟨rfl, rfl⟩

/-- C8 (amended): in passive mode `get_sensor_data` first transmits the
read-request command frame and then performs a frame read; in active
mode it performs only a frame read with no transmission; in both modes
its outcome — the error raised or the success, and the cached reading —
is exactly that of the frame read, so frame-read errors propagate
unchanged, but on success the caller gets no return value: the decoded
Reading is delivered through the cache alone. -/
theorem claim_C8 (d : Driver) (u : UARTState) :
    (get_sensor_data d u).2.1.written =
      (if d.passive then u.written ++ [buildCommand CMD_READ [0x00, 0x00]]
       else u.written) ∧
    get_sensor_data d u =
      _read d (if d.passive then _write u CMD_READ [0x00, 0x00] else u) := by
  unfold get_sensor_data
  cases hp : d.passive with
  | true =>
    constructor
    · simp [_read_written, _write]
    · simp
  | false =>
    constructor
    · simp [_read_written]
    · simp

/-- C1: for every 32-byte inbound frame whose low-8-bit checksum is
correct, whose measurement region is not all-zero and whose error-code
byte is 0, a successful `_read` caches a reading whose twelve
measurement fields, version and error code are exactly the big-endian
decode of frame bytes 5..30 (the start marker occupying bytes 1-2 and
the length field bytes 3-4; here `b0..b29` are frame bytes 3..32). -/
theorem claim_C1 (d : Driver) (w : List (List Nat))
    (b0 b1 b2 b3 b4 b5 b6 b7 b8 b9 b10 b11 b12 b13 b14 b15 b16 b17 b18 b19 b20 b21 b22 b23 b24 b25 b26 b27 b28 b29 : Nat)
    (hchk : checksumReceived (START_SEQUENCE ++ [b0, b1, b2, b3, b4, b5, b6, b7, b8, b9, b10, b11, b12, b13, b14, b15, b16, b17, b18, b19, b20, b21, b22, b23, b24, b25, b26, b27, b28, b29]) = checksumDerived (START_SEQUENCE ++ [b0, b1, b2, b3, b4, b5, b6, b7, b8, b9, b10, b11, b12, b13, b14, b15, b16, b17, b18, b19, b20, b21, b22, b23, b24, b25, b26, b27, b28, b29]))
    (hzero : measurementSum (START_SEQUENCE ++ [b0, b1, b2, b3, b4, b5, b6, b7, b8, b9, b10, b11, b12, b13, b14, b15, b16, b17, b18, b19, b20, b21, b22, b23, b24, b25, b26, b27, b28, b29]) ≠ 0)
    (herr : b27 = 0) :
    _read d { reads := [some marker0, some marker1, some [b0, b1, b2, b3, b4, b5, b6, b7, b8, b9, b10, b11, b12, b13, b14, b15, b16, b17, b18, b19, b20, b21, b22, b23, b24, b25, b26, b27, b28, b29]], written := w } =
      ({ d with data := some ({ frame_length := be16 b0 b1, pm1_0_cf_1 := be16 b2 b3, pm2_5_cf_1 := be16 b4 b5, pm10_cf_1 := be16 b6 b7, pm1_0 := be16 b8 b9, pm2_5 := be16 b10 b11, pm10 := be16 b12 b13, raw_gt_0_3 := be16 b14 b15, raw_gt_0_5 := be16 b16 b17, raw_gt_1_0 := be16 b18 b19, raw_gt_2_5 := be16 b20 b21, raw_gt_5_0 := be16 b22 b23, raw_gt_10 := be16 b24 b25, version := b26, error_code := b27, checksum := be16 b28 b29 }) },
       { reads := [], written := w }, Except.ok ()) := by
  have hu : unpack [b0, b1, b2, b3, b4, b5, b6, b7, b8, b9, b10, b11, b12, b13, b14, b15, b16, b17, b18, b19, b20, b21, b22, b23, b24, b25, b26, b27, b28, b29] = some ({ frame_length := be16 b0 b1, pm1_0_cf_1 := be16 b2 b3, pm2_5_cf_1 := be16 b4 b5, pm10_cf_1 := be16 b6 b7, pm1_0 := be16 b8 b9, pm2_5 := be16 b10 b11, pm10 := be16 b12 b13, raw_gt_0_3 := be16 b14 b15, raw_gt_0_5 := be16 b16 b17, raw_gt_1_0 := be16 b18 b19, raw_gt_2_5 := be16 b20 b21, raw_gt_5_0 := be16 b22 b23, raw_gt_10 := be16 b24 b25, version := b26, error_code := b27, checksum := be16 b28 b29 }) := rfl
  have hloop : readLoop MAX_ITERATION_TIME none
      [some marker0, some marker1, some [b0, b1, b2, b3, b4, b5, b6, b7, b8, b9, b10, b11, b12, b13, b14, b15, b16, b17, b18, b19, b20, b21, b22, b23, b24, b25, b26, b27, b28, b29]] =
      (Except.ok ({ frame_length := be16 b0 b1, pm1_0_cf_1 := be16 b2 b3, pm2_5_cf_1 := be16 b4 b5, pm10_cf_1 := be16 b6 b7, pm1_0 := be16 b8 b9, pm2_5 := be16 b10 b11, pm10 := be16 b12 b13, raw_gt_0_3 := be16 b14 b15, raw_gt_0_5 := be16 b16 b17, raw_gt_1_0 := be16 b18 b19, raw_gt_2_5 := be16 b20 b21, raw_gt_5_0 := be16 b22 b23, raw_gt_10 := be16 b24 b25, version := b26, error_code := b27, checksum := be16 b28 b29 }), ([] : List ReadResult)) := by
    rw [readLoop_start [some [b0, b1, b2, b3, b4, b5, b6, b7, b8, b9, b10, b11, b12, b13, b14, b15, b16, b17, b18, b19, b20, b21, b22, b23, b24, b25, b26, b27, b28, b29]]]
    exact processPacket_ok [b0, b1, b2, b3, b4, b5, b6, b7, b8, b9, b10, b11, b12, b13, b14, b15, b16, b17, b18, b19, b20, b21, b22, b23, b24, b25, b26, b27, b28, b29] [] _ hchk hzero hu herr
  unfold _read
  rw [hloop]

/-- C1 witness: the valid frame from the repository's tests decodes to
the expected reading. -/
theorem claim_C1_witness :
    _read dActive { reads := [some marker0, some marker1, some goodRest], written := [] } =
      ({ dActive with data := some goodSD },
       { reads := [], written := [] }, Except.ok ()) :=
  claim_C1 dActive [] 0x00 0x1c 0x00 0x05 0x00 0x08 0x00 0x23 0x00 0x05 0x00 0x08 0x00 0x23 0x00 0x30 0x00 0x0c 0x00 0x01 0x00 0x00 0x00 0x00 0x00 0x00 0x98 0x00 0x01 0xe0 (by decide) (by decide) rfl

/-- C5: for every received frame whose last byte (the low byte of the
transmitted checksum) differs from the low 8 bits of the sum of all
bytes except the trailing 2-byte checksum field, `_read` raises
`DataIntegrityError` carrying both values, caches no reading, and every
accessor afterwards returns the absent value. -/
theorem claim_C5 (d : Driver) (w : List (List Nat)) (rest : List Nat)
    (h : checksumReceived (START_SEQUENCE ++ rest) ≠ checksumDerived (START_SEQUENCE ++ rest)) :
    _read d { reads := [some marker0, some marker1, some rest], written := w } =
      ({ d with data := none }, { reads := [], written := w },
       Except.error (PMSError.dataIntegrity (DataIntegrityKind.checksumMismatch
         (checksumReceived (START_SEQUENCE ++ rest))
         (checksumDerived (START_SEQUENCE ++ rest))))) ∧
    pm1_0_cf_1 (_read d { reads := [some marker0, some marker1, some rest], written := w }).1 = none ∧
    pm2_5_cf_1 (_read d { reads := [some marker0, some marker1, some rest], written := w }).1 = none ∧
    pm10_cf_1 (_read d { reads := [some marker0, some marker1, some rest], written := w }).1 = none ∧
    pm1_0 (_read d { reads := [some marker0, some marker1, some rest], written := w }).1 = none ∧
    pm2_5 (_read d { reads := [some marker0, some marker1, some rest], written := w }).1 = none ∧
    pm10 (_read d { reads := [some marker0, some marker1, some rest], written := w }).1 = none ∧
    raw_gt_0_3 (_read d { reads := [some marker0, some marker1, some rest], written := w }).1 = none ∧
    raw_gt_0_5 (_read d { reads := [some marker0, some marker1, some rest], written := w }).1 = none ∧
    raw_gt_1_0 (_read d { reads := [some marker0, some marker1, some rest], written := w }).1 = none ∧
    raw_gt_2_5 (_read d { reads := [some marker0, some marker1, some rest], written := w }).1 = none ∧
    raw_gt_5_0 (_read d { reads := [some marker0, some marker1, some rest], written := w }).1 = none ∧
    raw_gt_10 (_read d { reads := [some marker0, some marker1, some rest], written := w }).1 = none ∧
    version (_read d { reads := [some marker0, some marker1, some rest], written := w }).1 = none ∧
    error (_read d { reads := [some marker0, some marker1, some rest], written := w }).1 = none := by
  have hmain : _read d { reads := [some marker0, some marker1, some rest], written := w } =
      ({ d with data := none }, { reads := [], written := w },
       Except.error (PMSError.dataIntegrity (DataIntegrityKind.checksumMismatch
         (checksumReceived (START_SEQUENCE ++ rest))
         (checksumDerived (START_SEQUENCE ++ rest))))) := by
    unfold _read
    rw [readLoop_start [some rest], processPacket_checksum_fail rest [] h]
  refine ⟨hmain, ?_, ?_, ?_, ?_, ?_, ?_, ?_, ?_, ?_, ?_, ?_, ?_, ?_, ?_⟩ <;>
    simp [hmain, pm1_0_cf_1, pm2_5_cf_1, pm10_cf_1, pm1_0, pm2_5, pm10, raw_gt_0_3, raw_gt_0_5, raw_gt_1_0, raw_gt_2_5, raw_gt_5_0, raw_gt_10, version, error]

/-- C5 witness: the checksum-mismatch frame from the repository's tests
(received low byte `0x70`, derived `0xe0`). -/
theorem claim_C5_witness :
    _read dActive { reads := [some marker0, some marker1, some badChecksumRest], written := [] } =
      ({ dActive with data := none }, { reads := [], written := [] },
       Except.error (PMSError.dataIntegrity (DataIntegrityKind.checksumMismatch
         (checksumReceived (START_SEQUENCE ++ badChecksumRest))
         (checksumDerived (START_SEQUENCE ++ badChecksumRest))))) :=
  (claim_C5 dActive [] badChecksumRest (by decide)).1

/-- C6: for every received frame that passes the checksum comparison
and whose 26 measurement bytes (frame bytes 3..28, the bytes preceding
version, error code and checksum) sum to exactly zero, `_read` raises
`DataIntegrityError` and caches no reading. -/
theorem claim_C6 (d : Driver) (w : List (List Nat)) (rest : List Nat)
    (hchk : checksumReceived (START_SEQUENCE ++ rest) = checksumDerived (START_SEQUENCE ++ rest))
    (hzero : measurementSum (START_SEQUENCE ++ rest) = 0) :
    _read d { reads := [some marker0, some marker1, some rest], written := w } =
      ({ d with data := none }, { reads := [], written := w },
       Except.error (PMSError.dataIntegrity DataIntegrityKind.allZero)) ∧
    pm1_0_cf_1 (_read d { reads := [some marker0, some marker1, some rest], written := w }).1 = none ∧
    pm2_5_cf_1 (_read d { reads := [some marker0, some marker1, some rest], written := w }).1 = none ∧
    pm10_cf_1 (_read d { reads := [some marker0, some marker1, some rest], written := w }).1 = none ∧
    pm1_0 (_read d { reads := [some marker0, some marker1, some rest], written := w }).1 = none ∧
    pm2_5 (_read d { reads := [some marker0, some marker1, some rest], written := w }).1 = none ∧
    pm10 (_read d { reads := [some marker0, some marker1, some rest], written := w }).1 = none ∧
    raw_gt_0_3 (_read d { reads := [some marker0, some marker1, some rest], written := w }).1 = none ∧
    raw_gt_0_5 (_read d { reads := [some marker0, some marker1, some rest], written := w }).1 = none ∧
    raw_gt_1_0 (_read d { reads := [some marker0, some marker1, some rest], written := w }).1 = none ∧
    raw_gt_2_5 (_read d { reads := [some marker0, some marker1, some rest], written := w }).1 = none ∧
    raw_gt_5_0 (_read d { reads := [some marker0, some marker1, some rest], written := w }).1 = none ∧
    raw_gt_10 (_read d { reads := [some marker0, some marker1, some rest], written := w }).1 = none ∧
    version (_read d { reads := [some marker0, some marker1, some rest], written := w }).1 = none ∧
    error (_read d { reads := [some marker0, some marker1, some rest], written := w }).1 = none := by
  have hmain : _read d { reads := [some marker0, some marker1, some rest], written := w } =
      ({ d with data := none }, { reads := [], written := w },
       Except.error (PMSError.dataIntegrity DataIntegrityKind.allZero)) := by
    unfold _read
    rw [readLoop_start [some rest], processPacket_all_zero rest [] hchk hzero]
  refine ⟨hmain, ?_, ?_, ?_, ?_, ?_, ?_, ?_, ?_, ?_, ?_, ?_, ?_, ?_, ?_⟩ <;>
    simp [hmain, pm1_0_cf_1, pm2_5_cf_1, pm10_cf_1, pm1_0, pm2_5, pm10, raw_gt_0_3, raw_gt_0_5, raw_gt_1_0, raw_gt_2_5, raw_gt_5_0, raw_gt_10, version, error]

/-- C6 witness: the all-zero frame from the repository's tests. -/
theorem claim_C6_witness :
    _read dActive { reads := [some marker0, some marker1, some zeroRest], written := [] } =
      ({ dActive with data := none }, { reads := [], written := [] },
       Except.error (PMSError.dataIntegrity DataIntegrityKind.allZero)) :=
  (claim_C6 dActive [] zeroRest (by decide) (by decide)).1

/-- C7: on every input stream in which no `0x42` read is ever followed
by a `0x4D` read within the iteration bound — including streams where
every read returns no data — the byte-scan loop performs at most
`MAX_ITERATION_TIME` single-byte reads (the result queue is the input
queue with at most that many results consumed) and then raises
`CommunicationError`, and no reading is cached: every accessor returns
the absent value. -/
theorem claim_C7 (d : Driver) (u : UARTState)
    (h : noStartMatch u.reads MAX_ITERATION_TIME) :
    _read d u = ({ d with data := none },
      { u with reads := u.reads.drop MAX_ITERATION_TIME },
      Except.error PMSError.communication) ∧
    pm1_0_cf_1 (_read d u).1 = none ∧
    pm2_5_cf_1 (_read d u).1 = none ∧
    pm10_cf_1 (_read d u).1 = none ∧
    pm1_0 (_read d u).1 = none ∧
    pm2_5 (_read d u).1 = none ∧
    pm10 (_read d u).1 = none ∧
    raw_gt_0_3 (_read d u).1 = none ∧
    raw_gt_0_5 (_read d u).1 = none ∧
    raw_gt_1_0 (_read d u).1 = none ∧
    raw_gt_2_5 (_read d u).1 = none ∧
    raw_gt_5_0 (_read d u).1 = none ∧
    raw_gt_10 (_read d u).1 = none ∧
    version (_read d u).1 = none ∧
    error (_read d u).1 = none := by
  have hmain : _read d u = ({ d with data := none },
      { u with reads := u.reads.drop MAX_ITERATION_TIME },
      Except.error PMSError.communication) := by
    unfold _read
    rw [readLoop_no_match MAX_ITERATION_TIME none u.reads
      (fun hp => absurd hp (by decide)) h]
  refine ⟨hmain, ?_, ?_, ?_, ?_, ?_, ?_, ?_, ?_, ?_, ?_, ?_, ?_, ?_, ?_⟩ <;>
    simp [hmain, pm1_0_cf_1, pm2_5_cf_1, pm10_cf_1, pm1_0, pm2_5, pm10, raw_gt_0_3, raw_gt_0_5, raw_gt_1_0, raw_gt_2_5, raw_gt_5_0, raw_gt_10, version, error]

/-- C7 witness: a transport that never returns data times out with
`CommunicationError` and caches nothing. -/
theorem claim_C7_witness :
    _read dActive uEmpty = ({ dActive with data := none },
      { uEmpty with reads := uEmpty.reads.drop MAX_ITERATION_TIME },
      Except.error PMSError.communication) :=
  (claim_C7 dActive uEmpty
    (by intro i hi j hj hij hb; rcases hb with ⟨hb1, -⟩; simp [uEmpty] at hb1)).1

/-- The cached reading is either absent or a fully validated decode of
a single frame. -/
def DriverInv (s : Driver × UARTState) : Prop :=
  s.1.data = none ∨ ∃ sd, s.1.data = some sd ∧ ValidReading sd

theorem get_sensor_data_data_valid (d : Driver) (u : UARTState) :
    (get_sensor_data d u).1.data = none ∨
      ∃ sd, (get_sensor_data d u).1.data = some sd ∧ ValidReading sd := by
  unfold get_sensor_data
  cases hp : d.passive with
  | true => simpa using _read_data_valid d (_write u CMD_READ [0x00, 0x00])
  | false => simpa using _read_data_valid d u

theorem runOp_inv (s : Driver × UARTState) (op : Op) (h : DriverInv s) :
    DriverInv (runOp s op) := by
  cases op with
  | opSetPassive => exact h
  | opSetActive => exact h
  | opSleep => exact h
  | opWake => exact h
  | opGetSensorData => exact get_sensor_data_data_valid s.1 s.2

theorem runOps_inv (ops : List Op) :
    ∀ s : Driver × UARTState, DriverInv s → DriverInv (runOps s ops) := by
  induction ops with
  | nil => intro s h; exact h
  | cons op ops ih => intro s h; exact ih (runOp s op) (runOp_inv s op h)

theorem initDriver_data (passive : Bool) (u : UARTState) :
    (initDriver passive u).1.data = none := by
  unfold initDriver
  cases passive <;> rfl

/-- C9: in every state reachable by initialisation followed by any
sequence of public operations, the cached reading is either absent — in
which case every accessor returns the explicit absent value `none` — or
was decoded whole from a single frame that passed checksum validation,
has a non-zero measurement region, unpacked from exactly 30 bytes, and
carries error code 0; no other reading is ever observable. -/
theorem claim_C9 (passive : Bool) (u : UARTState) (ops : List Op) :
    ((runOps (initDriver passive u) ops).1.data = none ∧
      pm1_0_cf_1 (runOps (initDriver passive u) ops).1 = none ∧
      pm2_5_cf_1 (runOps (initDriver passive u) ops).1 = none ∧
      pm10_cf_1 (runOps (initDriver passive u) ops).1 = none ∧
      pm1_0 (runOps (initDriver passive u) ops).1 = none ∧
      pm2_5 (runOps (initDriver passive u) ops).1 = none ∧
      pm10 (runOps (initDriver passive u) ops).1 = none ∧
      raw_gt_0_3 (runOps (initDriver passive u) ops).1 = none ∧
      raw_gt_0_5 (runOps (initDriver passive u) ops).1 = none ∧
      raw_gt_1_0 (runOps (initDriver passive u) ops).1 = none ∧
      raw_gt_2_5 (runOps (initDriver passive u) ops).1 = none ∧
      raw_gt_5_0 (runOps (initDriver passive u) ops).1 = none ∧
      raw_gt_10 (runOps (initDriver passive u) ops).1 = none ∧
      version (runOps (initDriver passive u) ops).1 = none ∧
      error (runOps (initDriver passive u) ops).1 = none) ∨
    ∃ sd, (runOps (initDriver passive u) ops).1.data = some sd ∧ ValidReading sd := by
  have h := runOps_inv ops (initDriver passive u) (Or.inl (initDriver_data passive u))
  rcases h with h | h
  · left
    refine ⟨h, ?_, ?_, ?_, ?_, ?_, ?_, ?_, ?_, ?_, ?_, ?_, ?_, ?_, ?_⟩ <;> simp [h, pm1_0_cf_1, pm2_5_cf_1, pm10_cf_1, pm1_0, pm2_5, pm10, raw_gt_0_3, raw_gt_0_5, raw_gt_1_0, raw_gt_2_5, raw_gt_5_0, raw_gt_10, version, error]
  · right
    exact h

/-- C10: `set_passive`, `set_active`, `sleep` and `wake` leave the
cached reading unchanged: after any of them every accessor returns
exactly what it returned before; only the frame-read operation writes
or clears the cache. -/
theorem claim_C10 (d : Driver) (u : UARTState) (op : Op)
    (h : op ≠ Op.opGetSensorData) :
    (runOp (d, u) op).1.data = d.data ∧
    pm1_0_cf_1 (runOp (d, u) op).1 = pm1_0_cf_1 d ∧
    pm2_5_cf_1 (runOp (d, u) op).1 = pm2_5_cf_1 d ∧
    pm10_cf_1 (runOp (d, u) op).1 = pm10_cf_1 d ∧
    pm1_0 (runOp (d, u) op).1 = pm1_0 d ∧
    pm2_5 (runOp (d, u) op).1 = pm2_5 d ∧
    pm10 (runOp (d, u) op).1 = pm10 d ∧
    raw_gt_0_3 (runOp (d, u) op).1 = raw_gt_0_3 d ∧
    raw_gt_0_5 (runOp (d, u) op).1 = raw_gt_0_5 d ∧
    raw_gt_1_0 (runOp (d, u) op).1 = raw_gt_1_0 d ∧
    raw_gt_2_5 (runOp (d, u) op).1 = raw_gt_2_5 d ∧
    raw_gt_5_0 (runOp (d, u) op).1 = raw_gt_5_0 d ∧
    raw_gt_10 (runOp (d, u) op).1 = raw_gt_10 d ∧
    version (runOp (d, u) op).1 = version d ∧
    error (runOp (d, u) op).1 = error d := by
  cases op with
  | opSetPassive => exact ⟨rfl, rfl, rfl, rfl, rfl, rfl, rfl, rfl, rfl, rfl, rfl, rfl, rfl, rfl, rfl⟩
  | opSetActive => exact ⟨rfl, rfl, rfl, rfl, rfl, rfl, rfl, rfl, rfl, rfl, rfl, rfl, rfl, rfl, rfl⟩
  | opSleep => exact ⟨rfl, rfl, rfl, rfl, rfl, rfl, rfl, rfl, rfl, rfl, rfl, rfl, rfl, rfl, rfl⟩
  | opWake => exact ⟨rfl, rfl, rfl, rfl, rfl, rfl, rfl, rfl, rfl, rfl, rfl, rfl, rfl, rfl, rfl⟩
  | opGetSensorData => exact absurd rfl h

/-- C10 witness: `set_passive` on a concrete state preserves the cached
reading. -/
theorem claim_C10_witness :
    (runOp (dActive, uEmpty) Op.opSetPassive).1.data = dActive.data :=
  (claim_C10 dActive uEmpty Op.opSetPassive (by decide)).1
